import Mathlib

/-!
Shallow embedding of the WhisperVault client-side authentication/session layer
and API gateway client (the Next.js frontend), together with theorems settling
the specification claims about it.

Conventions of the embedding:
* JavaScript values that can be `null`/`undefined` are modelled with `Option`.
* A thrown JS `Error` is modelled as `JsError`; fallible computations return
  `Except JsError α`.
* The outcome of a `fetch` (network reject, or a response object) is an input
  parameter of each function that performs a request, so that functions stay
  pure while mirroring the source control flow exactly.
* `localStorage` is modelled as an association list inside a `BrowserEnv`
  that also records whether a `window` object exists (browser vs SSR).
-/

namespace WhisperVault

/-- A thrown JavaScript `Error`: the client only ever reads `error.message`. -/
structure JsError where
  message : String
deriving Repr, DecidableEq

/-- A JSON value, as produced by `JSON.parse` / `response.json()`. -/
inductive Json where
  | null
  | bool (b : Bool)
  | num (n : Int)
  | str (s : String)
  | arr (elems : List Json)
  | obj (fields : List (String × Json))
deriving Repr

/-- JS truthiness of a JSON value (`!!v`); numeric NaN is not representable
here and does not occur in the modelled code paths. -/
def Json.truthy : Json → Bool
  | Json.null => false
  | Json.bool b => b
  | Json.num n => !(n == 0)
  | Json.str s => !(s == "")
  | Json.arr _ => true
  | Json.obj _ => true

/-- Lookup of a key in a JSON object field list. -/
def jsonFieldLookup : List (String × Json) → String → Option Json
  | [], _ => none
  | (k2, v) :: rest, k => if k2 == k then some v else jsonFieldLookup rest k

/-- Field lookup on a JSON object value: `v.k` read as a JS property access.
Returns `none` for a missing field or a non-object value (JS `undefined`). -/
def Json.getField : Json → String → Option Json
  | Json.obj fields, k => jsonFieldLookup fields k
  | _, _ => none

/-- JS `x || fallback` where `x` is a string-or-undefined: the empty string is
falsy, so it also selects the fallback. -/
def jsStrOr : Option String → String → String
  | some s, fallback => if s = "" then fallback else s
  | none, fallback => fallback

/-- Whether a character is whitespace for JS string trimming (modelled over
the ASCII whitespace characters; JS also strips some Unicode spaces). -/
def isJsSpace (c : Char) : Bool :=
  c == ' ' || c == '\t' || c == '\n' || c == '\r' || c == '\x0b' || c == '\x0c'

/-- JS `s.trim()`: strip whitespace from both ends. -/
def jsTrim (s : String) : String :=
  String.mk (((s.toList.dropWhile isJsSpace).reverse.dropWhile isJsSpace).reverse)

/-- Whether `needle` is a leading segment of `haystack` (character lists). -/
def charsHaveLead : List Char → List Char → Bool
  | [], _ => true
  | _ :: _, [] => false
  | a :: as, b :: bs => a == b && charsHaveLead as bs

/-- Helper for `jsIncludes`: scan the haystack left to right. -/
def jsIncludesAux (needle : List Char) : List Char → Bool
  | [] => charsHaveLead needle []
  | c :: rest => charsHaveLead needle (c :: rest) || jsIncludesAux needle rest

/-- JS `haystack.includes(needle)`: substring containment. -/
def jsIncludes (haystack needle : String) : Bool :=
  jsIncludesAux needle.toList haystack.toList

/-! ### Browser environment and the token manager (`tokenManager` in the API client) -/

/-- The storage key used by the API client: `const TOKEN_KEY = 'auth_token'`. -/
def TOKEN_KEY : String := "auth_token"

/-- Browser environment: whether `typeof window !== 'undefined'`, and the
contents of `localStorage` as key-value pairs. -/
structure BrowserEnv where
  hasWindow : Bool
  storage : List (String × String)
deriving Repr, DecidableEq

/-- `localStorage.getItem(k)`: the stored string or `null`. -/
def lsGetItem (env : BrowserEnv) (k : String) : Option String :=
  env.storage.lookup k

/-- `localStorage.setItem(k, v)`: overwrite any prior value for `k`. -/
def lsSetItem (env : BrowserEnv) (k v : String) : BrowserEnv :=
  { env with storage := (k, v) :: env.storage.filter (fun p => !(p.1 == k)) }

/-- `localStorage.removeItem(k)`. -/
def lsRemoveItem (env : BrowserEnv) (k : String) : BrowserEnv :=
  { env with storage := env.storage.filter (fun p => !(p.1 == k)) }

/-- A raw access to `localStorage` when no `window` exists (server-side
rendering) throws a ReferenceError; this wrapper makes that explicit. -/
def localStorageGetChecked (env : BrowserEnv) (k : String) : Except JsError (Option String) :=
  if env.hasWindow then Except.ok (lsGetItem env k)
  else Except.error { message := "ReferenceError: localStorage is not defined" }

/-- `tokenManager.getToken`: guarded by `typeof window !== 'undefined'`;
returns `null` outside a browser instead of touching storage. -/
def tokenManager.getToken (env : BrowserEnv) : Except JsError (Option String) :=
  if env.hasWindow then localStorageGetChecked env TOKEN_KEY
  else Except.ok none

/-- `tokenManager.setToken`: stores the token when a `window` exists. -/
def tokenManager.setToken (env : BrowserEnv) (token : String) : BrowserEnv :=
  if env.hasWindow then lsSetItem env TOKEN_KEY token else env

/-- `tokenManager.removeToken`: removes the token when a `window` exists. -/
def tokenManager.removeToken (env : BrowserEnv) : BrowserEnv :=
  if env.hasWindow then lsRemoveItem env TOKEN_KEY else env

/-! ### The API gateway client (`fetchApi`) -/

/-- The fields of a fetch `Response` that the client reads: `ok`, the numeric
status, `await response.text()` as `bodyText`, and the result of parsing that
body as JSON (`none` when the body is not valid JSON, in which case
`response.json()` rejects and `JSON.parse` throws). -/
structure HttpResponse where
  ok : Bool
  status : Nat
  bodyText : String
  bodyJson : Option Json

/-- `errorData.detail` read as a string: `errorData` is
`await response.json().catch(() => ({}))`, so an unparsable body yields an
empty object and hence an absent `detail`. -/
def jsonDetail (bodyJson : Option Json) : Option String :=
  match bodyJson with
  | some j =>
    match j.getField "detail" with
    | some (Json.str s) => some s
    | _ => none
  | none => none

/-- Mirrors `fetchApi` in the API client. The fetch outcome (network reject,
or a response) is a parameter. The Authorization-header attachment and the
console logging have no effect on the returned value and are not modelled.
On a non-ok response it throws `new Error(errorData.detail || 'Something went
wrong')`; on an ok response an empty body yields `null` and a non-empty body
is `JSON.parse`d (a parse failure throws, and the outer catch rethrows). -/
def fetchApi (fetchResult : Except JsError HttpResponse) : Except JsError Json :=
  match fetchResult with
  | Except.error e => Except.error e
  | Except.ok r =>
    if r.ok = false then
      Except.error { message := jsStrOr (jsonDetail r.bodyJson) "Something went wrong" }
    else if r.bodyText = "" then
      Except.ok Json.null
    else
      match r.bodyJson with
      | some j => Except.ok j
      | none => Except.error { message := "Unexpected token in JSON" }

/-! ### `authApi`: sign-in, current user, sign-out -/

/-- The `access_token` field of the token-endpoint response, when it is a
string. -/
def jsonAccessToken (j : Json) : Option String :=
  match j.getField "access_token" with
  | some (Json.str s) => some s
  | _ => none

/-- Mirrors `authApi.signIn`. Inputs: the outcome of the `POST /auth/token`
fetch and the outcome of the follow-up `fetchApi('/users/me')` fetch. If the
token response is not ok it throws `new Error(errorData.detail || 'Login
failed')`. Otherwise it reads `access_token` from the JSON body (a missing
field is JS `undefined`, which `localStorage.setItem` stringifies to
"undefined"), stores it via `tokenManager.setToken`, and returns the user
fetched from `/users/me`. -/
def authApi.signIn (env : BrowserEnv) (tokenFetch meFetch : Except JsError HttpResponse) :
    BrowserEnv × Except JsError Json :=
  match tokenFetch with
  | Except.error e => (env, Except.error e)
  | Except.ok r =>
    if r.ok = false then
      (env, Except.error { message := jsStrOr (jsonDetail r.bodyJson) "Login failed" })
    else
      match r.bodyJson with
      | none => (env, Except.error { message := "Unexpected token in JSON" })
      | some j =>
        let env2 := tokenManager.setToken env ((jsonAccessToken j).getD "undefined")
        match fetchApi meFetch with
        | Except.ok user => (env2, Except.ok user)
        | Except.error e => (env2, Except.error e)

/-- Mirrors `authApi.getCurrentUser`: tries `fetchApi('/users/me')`; on any
error it returns `null`, and removes the stored token only when the error
message contains the substring "401" or "403". -/
def authApi.getCurrentUser (env : BrowserEnv) (meFetch : Except JsError HttpResponse) :
    BrowserEnv × Except JsError Json :=
  match fetchApi meFetch with
  | Except.ok user => (env, Except.ok user)
  | Except.error e =>
    if jsIncludes e.message "401" || jsIncludes e.message "403" then
      (tokenManager.removeToken env, Except.ok Json.null)
    else
      (env, Except.ok Json.null)

/-- Mirrors `authApi.signOut`: `try { await fetchApi('/auth/logout') } catch
\x7b...\x7d finally { tokenManager.removeToken() }` — the token is removed on both
the success and the error path, and the call itself never throws. -/
def authApi.signOut (env : BrowserEnv) (logoutFetch : Except JsError HttpResponse) :
    BrowserEnv × Except JsError Unit :=
  match fetchApi logoutFetch with
  | Except.ok _ => (tokenManager.removeToken env, Except.ok ())
  | Except.error _ => (tokenManager.removeToken env, Except.ok ())

/-! ### The Auth Context (`AuthProvider` in the token-based variant) -/

/-- The reactive state held by the Auth Context: `{user, isAuthenticated,
isLoading}`; `user` is the raw JS value (`null` when signed out). -/
structure AuthUiState where
  user : Json
  isAuthenticated : Bool
  isLoading : Bool

/-- The initial Auth Context state: no user, not authenticated, loading. -/
def initialAuthState : AuthUiState :=
  { user := Json.null, isAuthenticated := false, isLoading := true }

/-- The observable outcome of an Auth Context method: the new state, the new
browser environment, any `router.push` target, and the promise result seen by
the caller. Toast notifications are not modelled. -/
structure ProviderResult where
  state : AuthUiState
  env : BrowserEnv
  nav : Option String
  result : Except JsError Unit

/-- Mirrors `AuthProvider.signIn`: sets `isLoading`, awaits `authApi.signIn`;
on success stores the user, marks authenticated, navigates to `/`; on failure
only clears `isLoading` and rethrows the same error to the caller. -/
def AuthProvider.signIn (st : AuthUiState) (env : BrowserEnv)
    (tokenFetch meFetch : Except JsError HttpResponse) : ProviderResult :=
  let st1 : AuthUiState := { st with isLoading := true }
  match authApi.signIn env tokenFetch meFetch with
  | (env2, Except.ok user) =>
    { state := { user := user, isAuthenticated := true, isLoading := false },
      env := env2, nav := some "/", result := Except.ok () }
  | (env2, Except.error e) =>
    { state := { st1 with isLoading := false },
      env := env2, nav := none, result := Except.error e }

/-- Mirrors `AuthProvider.signOut`: sets `isLoading`, awaits
`authApi.signOut` (which never throws), clears the user state and navigates
to the sign-in view. The catch branch mirrors the source even though it is
unreachable. -/
def AuthProvider.signOut (st : AuthUiState) (env : BrowserEnv)
    (logoutFetch : Except JsError HttpResponse) : ProviderResult :=
  let st1 : AuthUiState := { st with isLoading := true }
  match authApi.signOut env logoutFetch with
  | (env2, Except.ok _) =>
    { state := { user := Json.null, isAuthenticated := false, isLoading := false },
      env := env2, nav := some "/auth/sign-in", result := Except.ok () }
  | (env2, Except.error _) =>
    { state := { st1 with isLoading := false },
      env := env2, nav := none, result := Except.ok () }

/-! ### Route guards -/

/-- The slice of Auth Context state a guard reads. -/
structure GuardInput where
  isAuthenticated : Bool
  isLoading : Bool
deriving Repr, DecidableEq

/-- Mirrors the effect of the `useRequireAuth` hook: `if (!isAuthenticated)
router.push(redirectUrl)`. The hook destructures only `isAuthenticated` and
`user` from the Auth Context; it does not read `isLoading`. The returned
value is the `router.push` target issued when the effect runs, if any. -/
def useRequireAuth (auth : GuardInput) (redirectUrl : String) : Option String :=
  if auth.isAuthenticated = false then some redirectUrl else none

/-- What the guarded `SubmitPage` renders. -/
inductive SubmitPageView where
  | loadingView
  | signInRequired
  | formView
deriving Repr, DecidableEq

/-- Mirrors the `SubmitPage` guard: renders the loading placeholder while
`isLoading`, then a sign-in prompt when `!isAuthenticated || !user`, else the
form. It issues no navigation by itself. -/
def SubmitPage.render (user : Json) (isAuthenticated isLoading : Bool) : SubmitPageView :=
  if isLoading then SubmitPageView.loadingView
  else if isAuthenticated = false || user.truthy = false then SubmitPageView.signInRequired
  else SubmitPageView.formView

/-! ### The submit form (`SubmitForm.handleSubmit`, API-client variant) -/

/-- Numeric value of a digit string. -/
def digitsVal (ds : List Char) : Nat :=
  ds.foldl (fun n c => n * 10 + (c.toNat - 48)) 0

/-- JS `parseInt` on a decimal string: skip leading whitespace, optional
sign, then the longest digit prefix; `none` models NaN. -/
def jsParseInt (s : String) : Option Int :=
  match (jsTrim s).toList with
  | '-' :: cs =>
    let digits := cs.takeWhile Char.isDigit
    if digits.isEmpty then none else some (-(digitsVal digits : Int))
  | '+' :: cs =>
    let digits := cs.takeWhile Char.isDigit
    if digits.isEmpty then none else some (digitsVal digits : Int)
  | cs =>
    let digits := cs.takeWhile Char.isDigit
    if digits.isEmpty then none else some (digitsVal digits : Int)

/-- The form fields bound by the submit form; `age` is the raw text-input
string. -/
structure SubmitFormData where
  gender : String
  age : String
  content : String
  language : String
  anonymous : Bool

/-- The JSON payload the form sends to `confessionsApi.create`; `age` is
`parseInt(formData.age)` (`none` models NaN). -/
structure ConfessionPayload where
  gender : String
  age : Option Int
  content : String
  language : String
  anonymous : Bool
deriving Repr, DecidableEq

/-- What `handleSubmit` does after `e.preventDefault()`: either set an error
message and return before any network call, or issue the create request with
the built payload. -/
inductive SubmitAction where
  | showError (msg : String)
  | request (payload : ConfessionPayload)
deriving Repr, DecidableEq

/-- Whether a `SubmitAction` issues a network request. -/
def SubmitAction.issuesRequest : SubmitAction → Bool
  | SubmitAction.showError _ => false
  | SubmitAction.request _ => true

/-- The age validation test `!formData.age || parseInt(formData.age) < 13 ||
parseInt(formData.age) > 120`; NaN comparisons are false in JS, so a NaN age
passes this check (and reaches the payload), faithfully mirrored here. -/
def ageRejected (age : String) : Bool :=
  age = "" ||
    (match jsParseInt age with
     | some n => decide (n < 13) || decide (n > 120)
     | none => false)

/-- Mirrors `SubmitForm.handleSubmit` in the API-client variant: validates
content, gender and age in that order, setting an error and returning before
any network request on failure; otherwise builds the payload (trimmed
content, `language || 'en'`) and calls `confessionsApi.create`. -/
def SubmitForm.handleSubmit (fd : SubmitFormData) : SubmitAction :=
  if jsTrim fd.content = "" then SubmitAction.showError "Please enter your confession"
  else if fd.gender = "" then SubmitAction.showError "Please select your gender"
  else if ageRejected fd.age then SubmitAction.showError "Please enter a valid age (13-120)"
  else SubmitAction.request
    { gender := fd.gender
      age := jsParseInt fd.age
      content := jsTrim fd.content
      language := if fd.language = "" then "en" else fd.language
      anonymous := fd.anonymous }

/-! ### The confessions list (`MyConfessions`) and its pagination envelope -/

/-- A confession record as the list component consumes it. -/
structure Confession where
  id : Int
  user_id : Option Int
  gender : String
  age : Int
  content : String
  language : Option String
  anonymous : Bool
  status : String
  created_at : String
  updated_at : String
deriving Repr, DecidableEq

/-- The paginated envelope returned by `GET /confessions/my-confessions`. -/
structure PaginatedResponse where
  items : List Confession
  total : Int
  page : Int
  per_page : Int
  pages : Int
  has_next : Bool
  has_prev : Bool
deriving Repr, DecidableEq

/-- The pagination footer the component renders when `pages > 1`: the range
text `Showing {(page-1)*per_page+1} to {min(page*per_page, total)} of
{total}` and the enabled state of the Previous/Next buttons
(`disabled={!has_prev}` / `disabled={!has_next}`). -/
structure PaginationControls where
  rangeFrom : Int
  rangeTo : Int
  total : Int
  prevEnabled : Bool
  nextEnabled : Bool
deriving Repr, DecidableEq

/-- The pagination footer, shown only when `confessions.pages > 1`. -/
def paginationControls (c : PaginatedResponse) : Option PaginationControls :=
  if c.pages > 1 then
    some { rangeFrom := (c.page - 1) * c.per_page + 1
           rangeTo := min (c.page * c.per_page) c.total
           total := c.total
           prevEnabled := c.has_prev
           nextEnabled := c.has_next }
  else none

/-- What the `MyConfessions` component renders. -/
inductive MyConfessionsView where
  | signInPrompt
  | loadingView
  | errorView (msg : String)
  | emptyView
  | listView (shown : List Confession) (pagination : Option PaginationControls)
deriving Repr, DecidableEq

/-- JS truthiness of a string-or-null state variable (`if (error)`). -/
def strOptTruthy : Option String → Bool
  | some s => !(s == "")
  | none => false

/-- Mirrors the render branches of `MyConfessions`: sign-in prompt when not
authenticated, then loading, then error, then the empty state when there is
no envelope or no items, else the list of exactly `confessions.items` with
the pagination footer. -/
def MyConfessions.render (isAuthenticated : Bool) (user : Json) (loading : Bool)
    (error : Option String) (confessions : Option PaginatedResponse) : MyConfessionsView :=
  if isAuthenticated = false || user.truthy = false then MyConfessionsView.signInPrompt
  else if loading then MyConfessionsView.loadingView
  else if strOptTruthy error then MyConfessionsView.errorView (error.getD "")
  else
    match confessions with
    | none => MyConfessionsView.emptyView
    | some c =>
      if c.items.length = 0 then MyConfessionsView.emptyView
      else MyConfessionsView.listView c.items (paginationControls c)

/-! ### The stub auth provider (cookie/role-based variant) -/

/-- The user record the stub provider fabricates and stores. -/
structure StubUser where
  email : String
  role : String
deriving Repr, DecidableEq

/-- The state the stub provider touches: the `auth:user` storage slot and the
React `user` state. The `JSON.stringify`/`JSON.parse` round-trip through
`localStorage` is modelled as the identity on the stored record. -/
structure StubState where
  storage : Option StubUser
  user : Option StubUser
deriving Repr, DecidableEq

/-- Mirrors the stub `AuthProvider.signIn` (the underscore on the password
binder mirrors the source, which names it `_password` and never reads it):
if the storage slot holds a user, set the state from it and return;
otherwise fabricate `{email, role: 'user'}`, store it and set the state. The
second component lists the network requests issued during the call — this
signIn performs none. -/
def stubSignIn (email _password : String) (s : StubState) : StubState × List String :=
  match s.storage with
  | some u => ({ s with user := some u }, [])
  | none =>
    let u : StubUser := { email := email, role := "user" }
    ({ storage := some u, user := some u }, [])

/-! ### Helper lemmas -/

/-- Looking up a key after filtering out every pair with that key gives
nothing. -/
lemma lookup_filter_key_none (k : String) :
    ∀ l : List (String × String), (l.filter (fun p => !(p.1 == k))).lookup k = none := by
  intro l
  induction l with
  | nil => rfl
  | cons hd tl ih =>
    by_cases h : hd.1 = k
    · simp [List.filter_cons, h, ih]
    · have h2 : (k == hd.1) = false := by
        simp only [beq_eq_false_iff_ne, ne_eq]
        exact fun hh => h hh.symm
      simp [List.filter_cons, List.lookup, h, h2, ih]

/-- After `tokenManager.removeToken`, `tokenManager.getToken` reads back an
absent value in every environment. -/
lemma getToken_removeToken (env : BrowserEnv) :
    tokenManager.getToken (tokenManager.removeToken env) = Except.ok none := by
  cases h : env.hasWindow <;>
    simp [tokenManager.getToken, tokenManager.removeToken, localStorageGetChecked,
      lsRemoveItem, lsGetItem, h, lookup_filter_key_none]

/-! ### Concrete inputs used by the claim theorems -/

/-- A browser environment holding a stored credential. -/
def envWithToken : BrowserEnv :=
  { hasWindow := true, storage := [("auth_token", "tok123")] }

/-- A 401 response carrying the standard FastAPI detail string. -/
def resp401 : HttpResponse :=
  { ok := false, status := 401
    bodyText := "\x7b\"detail\":\"Not authenticated\"\x7d"
    bodyJson := some (Json.obj [("detail", Json.str "Not authenticated")]) }

/-- The guard input during the initial identity fetch: the Auth Context
mounts with `isAuthenticated = false` and `isLoading = true`. -/
def loadingGuardState : GuardInput :=
  { isAuthenticated := false, isLoading := true }

/-- **C1.** The claim says a 401 response on an authenticated call clears the
stored credential. The code only removes the token when the thrown error
message contains the substring "401" or "403", but that message carries the
server `detail` string (here the standard "Not authenticated"), not the
numeric status: `fetchApi` throws `Error("Not authenticated")`,
`getCurrentUser` leaves the environment unchanged, and the credential is
still stored afterwards. -/
theorem c1_token_kept_on_401 :
    fetchApi (Except.ok resp401) = Except.error { message := "Not authenticated" } ∧
    authApi.getCurrentUser envWithToken (Except.ok resp401) =
      (envWithToken, Except.ok Json.null) ∧
    tokenManager.getToken envWithToken = Except.ok (some "tok123") :=
  ⟨rfl, rfl, rfl⟩

/-- **C2.** After every completed `signOut` call the stored credential is
absent, whatever the outcome of the server-side `POST /auth/logout` request:
the `finally` block removes the token on both the success and the error
path. -/
theorem c2_signOut_clears_credential (env : BrowserEnv)
    (logoutFetch : Except JsError HttpResponse) :
    tokenManager.getToken ((authApi.signOut env logoutFetch).1) = Except.ok none := by
  cases h : fetchApi logoutFetch <;>
    simp [authApi.signOut, h, getToken_removeToken]

/-- **C3.** The claim says a route guard never issues a redirect while
`isLoading` is true. The `useRequireAuth` hook reads only `isAuthenticated`
and redirects whenever it is false, so in the initial state of the Auth
Context (`isLoading = true`, `isAuthenticated = false`) it issues
`router.push('/auth/sign-in')` while the identity fetch is still
outstanding; the `SubmitPage` guard, by contrast, renders its loading
placeholder in that state. -/
theorem c3_useRequireAuth_redirects_during_load :
    loadingGuardState.isLoading = true ∧
    useRequireAuth loadingGuardState "/auth/sign-in" = some "/auth/sign-in" ∧
    SubmitPage.render Json.null false true = SubmitPageView.loadingView := by
  decide

/-- **C4.** When the token endpoint rejects the credentials with a non-empty
`detail` string, `AuthProvider.signIn` leaves `isAuthenticated` false (it
only clears the loading flag on the error path) and rethrows the very error
built from the server detail to its caller. -/
theorem c4_signIn_rejected_propagates_detail (st : AuthUiState) (env : BrowserEnv)
    (r : HttpResponse) (me : Except JsError HttpResponse) (d : String)
    (hok : r.ok = false) (hd : jsonDetail r.bodyJson = some d) (hne : d ≠ "")
    (hauth : st.isAuthenticated = false) :
    (AuthProvider.signIn st env (Except.ok r) me).state.isAuthenticated = false ∧
    (AuthProvider.signIn st env (Except.ok r) me).result = Except.error { message := d } := by
  simp [AuthProvider.signIn, authApi.signIn, hok, hd, jsStrOr, hne, hauth]

/-- A sign-in environment with empty storage. -/
def envEmpty : BrowserEnv := { hasWindow := true, storage := [] }

/-- A credential-rejection response from `POST /auth/token`. -/
def respBadCreds : HttpResponse :=
  { ok := false, status := 401
    bodyText := "\x7b\"detail\":\"Incorrect email or password\"\x7d"
    bodyJson := some (Json.obj [("detail", Json.str "Incorrect email or password")]) }

/-- Witness for C4 at a concrete rejected sign-in. -/
theorem c4_witness :
    (AuthProvider.signIn initialAuthState envEmpty (Except.ok respBadCreds)
      (Except.ok respBadCreds)).state.isAuthenticated = false ∧
    (AuthProvider.signIn initialAuthState envEmpty (Except.ok respBadCreds)
      (Except.ok respBadCreds)).result =
      Except.error { message := "Incorrect email or password" } :=
  c4_signIn_rejected_propagates_detail initialAuthState envEmpty respBadCreds
    (Except.ok respBadCreds) "Incorrect email or password" rfl rfl (by decide) rfl

/-- **C5.** The `fetchApi` contract: a non-ok response fails with the server
`detail` message (falling back to the generic message when none is present);
an ok response with an empty body yields `null`, and with a non-empty body
yields its parsed JSON. -/
theorem c5_fetchApi_contract (r : HttpResponse) (d : String) (j : Json) :
    (r.ok = false → jsonDetail r.bodyJson = some d → d ≠ "" →
      fetchApi (Except.ok r) = Except.error { message := d }) ∧
    (r.ok = false → jsonDetail r.bodyJson = none →
      fetchApi (Except.ok r) = Except.error { message := "Something went wrong" }) ∧
    (r.ok = true → r.bodyText = "" → fetchApi (Except.ok r) = Except.ok Json.null) ∧
    (r.ok = true → r.bodyText ≠ "" → r.bodyJson = some j →
      fetchApi (Except.ok r) = Except.ok j) := by
  refine ⟨?_, ?_, ?_, ?_⟩
  · intro h1 h2 h3
    simp [fetchApi, h1, h2, jsStrOr, h3]
  · intro h1 h2
    simp [fetchApi, h1, h2, jsStrOr]
  · intro h1 h2
    simp [fetchApi, h1, h2]
  · intro h1 h2 h3
    simp [fetchApi, h1, h2, h3]

/-- A failing response with no parsable body. -/
def respNoDetail : HttpResponse :=
  { ok := false, status := 500, bodyText := "oops", bodyJson := none }

/-- An ok response with an empty body. -/
def respEmptyOk : HttpResponse :=
  { ok := true, status := 204, bodyText := "", bodyJson := none }

/-- An ok response with a JSON object body. -/
def respJsonOk : HttpResponse :=
  { ok := true, status := 200, bodyText := "\x7b\x7d", bodyJson := some (Json.obj []) }

/-- Witness for C5: all four branches of the contract at concrete
responses. -/
theorem c5_witness :
    fetchApi (Except.ok respBadCreds) =
      Except.error { message := "Incorrect email or password" } ∧
    fetchApi (Except.ok respNoDetail) = Except.error { message := "Something went wrong" } ∧
    fetchApi (Except.ok respEmptyOk) = Except.ok Json.null ∧
    fetchApi (Except.ok respJsonOk) = Except.ok (Json.obj []) :=
  ⟨(c5_fetchApi_contract respBadCreds "Incorrect email or password" Json.null).1
      rfl rfl (by decide),
   (c5_fetchApi_contract respNoDetail "" Json.null).2.1 rfl rfl,
   (c5_fetchApi_contract respEmptyOk "" Json.null).2.2.1 rfl rfl,
   (c5_fetchApi_contract respJsonOk "" (Json.obj [])).2.2.2 rfl (by decide) rfl⟩

/-- A failing response used by the C6 counterexample. -/
def resp500 : HttpResponse :=
  { ok := false, status := 500, bodyText := "", bodyJson := none }

/-- **C6 counterexample.** The claim says the API gateway layer never
converts a failing call into a non-error result. But `authApi.getCurrentUser`
— part of the gateway client — catches the failure of its `/users/me` call
(here a protocol failure, rethrown by `fetchApi`) and returns the non-error
result `null`. -/
theorem c6_counterexample_getCurrentUser_swallows :
    fetchApi (Except.ok resp500) = Except.error { message := "Something went wrong" } ∧
    authApi.getCurrentUser envWithToken (Except.ok resp500) =
      (envWithToken, Except.ok Json.null) :=
  ⟨rfl, rfl⟩

/-- **C6 amended.** `fetchApi` itself never swallows an error: a network
reject is rethrown as is, a non-ok status always produces an error, and a
parse failure on a non-empty ok body produces an error. (The wrappers
`authApi.getCurrentUser` and `authApi.signOut` do catch these errors.) -/
theorem c6_fetchApi_never_swallows (r : HttpResponse) (e : JsError) :
    (fetchApi (Except.error e) = Except.error e) ∧
    (r.ok = false → ∃ e2, fetchApi (Except.ok r) = Except.error e2) ∧
    (r.ok = true → r.bodyText ≠ "" → r.bodyJson = none →
      fetchApi (Except.ok r) = Except.error { message := "Unexpected token in JSON" }) := by
  refine ⟨rfl, ?_, ?_⟩
  · intro h1
    refine ⟨{ message := jsStrOr (jsonDetail r.bodyJson) "Something went wrong" }, ?_⟩
    simp [fetchApi, h1]
  · intro h1 h2 h3
    simp [fetchApi, h1, h2, h3]

/-- An ok response whose body is not valid JSON. -/
def respBadJson : HttpResponse :=
  { ok := true, status := 200, bodyText := "not json", bodyJson := none }

/-- Witness for the amended C6 at concrete inputs for all three failure
modes. -/
theorem c6_witness :
    fetchApi (Except.error { message := "NetworkError when attempting to fetch resource" }) =
      Except.error { message := "NetworkError when attempting to fetch resource" } ∧
    (∃ e2, fetchApi (Except.ok resp500) = Except.error e2) ∧
    fetchApi (Except.ok respBadJson) = Except.error { message := "Unexpected token in JSON" } :=
  ⟨(c6_fetchApi_never_swallows resp500
      { message := "NetworkError when attempting to fetch resource" }).1,
   (c6_fetchApi_never_swallows resp500
      { message := "NetworkError when attempting to fetch resource" }).2.1 rfl,
   (c6_fetchApi_never_swallows respBadJson
      { message := "NetworkError when attempting to fetch resource" }).2.2 rfl (by decide) rfl⟩

/-- **C7.** A submission whose content trims to the empty string is rejected
by `handleSubmit` before anything else: the form error is set to the fixed
message and no network request is issued. -/
theorem c7_empty_content_rejected (fd : SubmitFormData) (h : jsTrim fd.content = "") :
    SubmitForm.handleSubmit fd = SubmitAction.showError "Please enter your confession" ∧
    (SubmitForm.handleSubmit fd).issuesRequest = false := by
  constructor
  · simp [SubmitForm.handleSubmit, h]
  · simp [SubmitForm.handleSubmit, h, SubmitAction.issuesRequest]

/-- A filled form whose content is whitespace only. -/
def fdWhitespace : SubmitFormData :=
  { gender := "female", age := "21", content := "   ", language := "en", anonymous := true }

/-- Witness for C7 at a whitespace-only content. -/
theorem c7_witness :
    SubmitForm.handleSubmit fdWhitespace =
      SubmitAction.showError "Please enter your confession" ∧
    (SubmitForm.handleSubmit fdWhitespace).issuesRequest = false :=
  c7_empty_content_rejected fdWhitespace (by decide)

/-- A confession record with a given id, as returned inside the sample
envelope. -/
def mkItem (i : Int) : Confession :=
  { id := i, user_id := some 1, gender := "female", age := 21, content := "c"
    language := some "en", anonymous := true, status := "approved"
    created_at := "2024-01-01", updated_at := "2024-01-01" }

/-- The five items of the sample envelope (confessions 6 through 10). -/
def envelopeItems : List Confession :=
  [mkItem 6, mkItem 7, mkItem 8, mkItem 9, mkItem 10]

/-- The pagination envelope of the claim: `total=12`, `per_page=5`, `page=2`
(so the server reports `pages=3`, `has_next=true`, `has_prev=true`). -/
def sampleEnvelope : PaginatedResponse :=
  { items := envelopeItems, total := 12, page := 2, per_page := 5, pages := 3
    has_next := true, has_prev := true }

/-- A signed-in user value for the render state. -/
def sampleUser : Json := Json.obj [("id", Json.num 1)]

/-- **C8.** With the envelope `{total:12, per_page:5, page:2}` the component
renders exactly the five items of the envelope (ids 6 through 10), the range
text computes `(page-1)*per_page+1 = 6` and `min(page*per_page, total) =
10`, and both the Previous and the Next control are enabled. -/
theorem c8_pagination_envelope :
    MyConfessions.render true sampleUser false none (some sampleEnvelope) =
      MyConfessionsView.listView envelopeItems
        (some { rangeFrom := 6, rangeTo := 10, total := 12
                prevEnabled := true, nextEnabled := true }) ∧
    envelopeItems.map Confession.id = [6, 7, 8, 9, 10] ∧
    envelopeItems.length = 5 := by
  decide

/-- **C9.** `tokenManager.getToken` never throws: in every environment it
returns normally, with the stored credential (or an absent value) when a
`window` exists and with the absent value when no browser storage is
available (server-side rendering). -/
theorem c9_getToken_total (env : BrowserEnv) :
    tokenManager.getToken env =
      Except.ok (if env.hasWindow then lsGetItem env TOKEN_KEY else none) := by
  cases h : env.hasWindow <;>
    simp [tokenManager.getToken, localStorageGetChecked, h]

/-- **C10.** In the stub auth provider the outcome of `signIn` does not
depend on the password: for every email, any two passwords and the same
initial state, the two runs produce identical storage and user state, the
user ends up signed in (non-null), and no network request is issued. -/
theorem c10_stub_signIn_password_independent (email p1 p2 : String) (s : StubState) :
    stubSignIn email p1 s = stubSignIn email p2 s ∧
    (stubSignIn email p1 s).1.user.isSome = true ∧
    (stubSignIn email p1 s).2 = [] := by
  refine ⟨rfl, ?_, ?_⟩ <;> cases h : s.storage <;> simp [stubSignIn, h]

end WhisperVault
